import Mathlib

/-!
Verification model of the meatly-commerce order-placement workflow.

The TypeScript handlers under `src/server/src/handlers` (and the unnamed
source parts) are embedded shallowly:

* PostgreSQL `numeric(10,2)` money columns (drizzle schema, second
  segment of ShoppingCartView.tsx: `price`, `total_amount`,
  `unit_price`, `total_price`) are embedded as exact integer cents
  (`Int`).
* JavaScript numbers produced by `parseFloat` and arithmetic on them are
  embedded as exact IEEE-754 binary64 values represented as dyadic
  rationals `m * 2^e` (`F64`), with round-to-nearest-even realized by
  integer arithmetic.  Overflow and subnormals are outside the range of
  any value handled here and are not modelled.
* Database tables are lists of row structures in insertion order; serial
  primary keys are modelled by per-table counters; `new Date()` and
  column `defaultNow()` timestamps are an explicit `now : Nat` parameter.
* A database call made by a handler can fail at runtime; since the
  handlers use no transaction, the effect of a failure in the middle of
  a handler is the state produced by the calls that already succeeded.
  This is modelled by a `FailPoint` parameter selecting which call (if
  any) of `createOrder` throws.
-/

namespace Meatly

/-! ## IEEE-754 binary64 arithmetic on dyadic rationals -/

/-- Dyadic rational `m * 2^e`, the exact value of a finite JavaScript
number. -/
structure F64 where
  m : Int
  e : Int
deriving Repr, DecidableEq

/-- Number of binary digits of `n`, computed with explicit fuel so that
the kernel can evaluate it. -/
def bitLen : Nat → Nat → Nat
  | 0, _ => 0
  | f + 1, n => if n = 0 then 0 else bitLen f (n / 2) + 1

/-- Round `a / b` to the nearest integer, ties to even (the IEEE-754
default rounding). -/
def rheDiv (a b : Nat) : Nat :=
  let q := a / b
  let r := a % b
  if 2 * r < b then q
  else if b < 2 * r then q + 1
  else if q % 2 = 0 then q else q + 1

/-- Largest `e` with `b * 2^e ≤ a`, assuming `b ≤ a`; fuel-bounded loop. -/
def e2fUp : Nat → Nat → Nat → Nat
  | 0, _, _ => 0
  | f + 1, a, b => if b * 2 ≤ a then e2fUp f a (b * 2) + 1 else 0

/-- Smallest `k` with `b ≤ a * 2^k`, assuming `a < b`; fuel-bounded loop. -/
def e2fDown : Nat → Nat → Nat → Nat
  | 0, _, _ => 0
  | f + 1, a, b => if b ≤ a then 0 else e2fDown f (a * 2) b + 1

/-- Floor of the base-2 logarithm of the positive fraction `a / b`. -/
def exp2floor (a b : Nat) : Int :=
  if b ≤ a then (e2fUp 200 a b : Int) else -(e2fDown 200 a b : Int)

/-- Round the fraction `a / b` to the nearest binary64 value
(round-to-nearest, ties to even).  This is what JavaScript `parseFloat`
yields on the decimal string of `a / b`. -/
def flFrac (a : Int) (b : Nat) : F64 :=
  if a = 0 then ⟨0, 0⟩
  else
    let n := a.natAbs
    let e := exp2floor n b
    let num := if e ≤ 52 then n * 2 ^ (52 - e).toNat else n
    let den := if e ≤ 52 then b else b * 2 ^ (e - 52).toNat
    let m := rheDiv num den
    ⟨if a < 0 then -(m : Int) else (m : Int), e - 52⟩

/-- Exact sum of two dyadics (before rounding). -/
def dyAdd (x y : F64) : F64 :=
  if x.e ≤ y.e then ⟨x.m + y.m * 2 ^ (y.e - x.e).toNat, x.e⟩
  else ⟨y.m + x.m * 2 ^ (x.e - y.e).toNat, y.e⟩

/-- Exact product of a dyadic with an integer (before rounding). -/
def dyMulInt (x : F64) (q : Int) : F64 :=
  ⟨x.m * q, x.e⟩

/-- Round an exact dyadic to 53 significant bits (round-to-nearest,
ties to even): the binary64 result of an exact intermediate value. -/
def flF64 (x : F64) : F64 :=
  if x.m = 0 then ⟨0, 0⟩
  else
    let n := x.m.natAbs
    let len := bitLen 200 n
    if len ≤ 53 then x
    else
      let s := len - 53
      let m := rheDiv n (2 ^ s)
      ⟨if x.m < 0 then -(m : Int) else (m : Int), x.e + (s : Int)⟩

/-- JavaScript `x * q` for a number `x` and an exactly representable
integer `q`. -/
def jsMul (x : F64) (q : Int) : F64 :=
  flF64 (dyMulInt x q)

/-- JavaScript `x + y`. -/
def jsAdd (x y : F64) : F64 :=
  flF64 (dyAdd x y)

/-- JavaScript `parseFloat` applied to the decimal string of a
`numeric(10,2)` column value of `c` cents. -/
def parseCents (c : Int) : F64 :=
  flFrac c 100

/-- Value of the `numeric(10,2)` column that results from persisting the
JavaScript number `x` (its `toString()` image is parsed by PostgreSQL and
rounded to scale 2, half away from zero), in cents.  The rounding is
applied to the exact value of `x`; the shortest-round-trip `toString()`
string rounds identically for every value arising here. -/
def pgRound2 (x : F64) : Int :=
  let v := dyMulInt x 100
  if 0 ≤ v.e then v.m * 2 ^ v.e.toNat
  else
    let den := 2 ^ (-v.e).toNat
    let n := v.m.natAbs
    let q := n / den
    let r := n % den
    let q2 := if den ≤ 2 * r then q + 1 else q
    if v.m < 0 then -(q2 : Int) else (q2 : Int)

/-- Proposition that the dyadic `x` is exactly the fraction `a / b`. -/
def F64.eqFrac (x : F64) (a : Int) (b : Nat) : Prop :=
  if 0 ≤ x.e then x.m * 2 ^ x.e.toNat * b = a
  else x.m * b = a * 2 ^ (-x.e).toNat

instance (x : F64) (a : Int) (b : Nat) : Decidable (x.eqFrac a b) := by
  unfold F64.eqFrac
  exact inferInstanceAs (Decidable _)

/-! ## Data model: rows of the relational schema (`schema.ts`, part_013) -/

/-- Enumeration `productCategorySchema`. -/
inductive ProductCategory
  | chicken
  | fish
  | meat
deriving Repr, DecidableEq

/-- Enumeration `orderStatusSchema`. -/
inductive OrderStatus
  | pending
  | confirmed
  | preparing
  | out_for_delivery
  | delivered
  | cancelled
deriving Repr, DecidableEq

/-- Enumeration `deliveryStatusSchema`. -/
inductive DeliveryStatus
  | pending
  | assigned
  | picked_up
  | in_transit
  | delivered
deriving Repr, DecidableEq

/-- Row of `usersTable`. -/
structure UserRow where
  id : Nat
  email : String
  full_name : String
  phone : Option String
  address : Option String
  created_at : Nat
  updated_at : Nat
deriving Repr, DecidableEq

/-- Row of `productsTable`; `price` is the `numeric(10,2)` column in
cents. -/
structure ProductRow where
  id : Nat
  name : String
  description : Option String
  category : ProductCategory
  price : Int
  unit : String
  stock_quantity : Int
  image_url : Option String
  is_available : Bool
  created_at : Nat
  updated_at : Nat
deriving Repr, DecidableEq

/-- Row of `cartItemsTable`. -/
structure CartItemRow where
  id : Nat
  user_id : Nat
  product_id : Nat
  quantity : Int
  created_at : Nat
  updated_at : Nat
deriving Repr, DecidableEq

/-- Row of `ordersTable`; `total_amount` is the `numeric(10,2)` column in
cents. -/
structure OrderRow where
  id : Nat
  user_id : Nat
  total_amount : Int
  status : OrderStatus
  delivery_address : String
  delivery_phone : String
  notes : Option String
  created_at : Nat
  updated_at : Nat
deriving Repr, DecidableEq

/-- Row of `orderItemsTable`; `unit_price` and `total_price` are
`numeric(10,2)` columns in cents. -/
structure OrderItemRow where
  id : Nat
  order_id : Nat
  product_id : Nat
  quantity : Int
  unit_price : Int
  total_price : Int
deriving Repr, DecidableEq

/-- Row of `deliveriesTable`. -/
structure DeliveryRow where
  id : Nat
  order_id : Nat
  status : DeliveryStatus
  estimated_delivery_time : Option Nat
  actual_delivery_time : Option Nat
  delivery_person_name : Option String
  delivery_person_phone : Option String
  tracking_notes : Option String
  created_at : Nat
  updated_at : Nat
deriving Repr, DecidableEq

/-- Database state: tables in row-insertion order plus the serial-id
counters of the tables the modelled handlers insert into. -/
structure DB where
  users : List UserRow
  products : List ProductRow
  cartItems : List CartItemRow
  orders : List OrderRow
  orderItems : List OrderItemRow
  deliveries : List DeliveryRow
  nextCartItemId : Nat
  nextOrderId : Nat
  nextOrderItemId : Nat
deriving Repr, DecidableEq

/-! ## Handler input and output shapes (`schema.ts`, part_013) -/

/-- Parsed `CreateOrderInput` (`createOrderInputSchema` output type);
`notes` holds `none` for both `null` and `undefined`, which the handler
treats identically (`input.notes || null`). -/
structure CreateOrderInput where
  user_id : Nat
  delivery_address : String
  delivery_phone : String
  notes : Option String
deriving Repr, DecidableEq

/-- Raw request body reaching `createOrderInputSchema`: `notes` may be
absent (`none`), `null` (`some none`) or a string (`some (some s)`). -/
structure RawCreateOrderInput where
  user_id : Nat
  delivery_address : String
  delivery_phone : String
  notes : Option (Option String)
deriving Repr, DecidableEq

/-- Parsed `AddToCartInput` (`addToCartInputSchema` output type). -/
structure AddToCartInput where
  user_id : Nat
  product_id : Nat
  quantity : Int
deriving Repr, DecidableEq

/-- Parsed `UpdateProductInput` (`updateProductInputSchema` output
type): every field but `id` is optional. -/
structure UpdateProductInput where
  id : Nat
  name : Option String
  description : Option (Option String)
  category : Option ProductCategory
  price : Option Int
  unit : Option String
  stock_quantity : Option Int
  image_url : Option (Option String)
  is_available : Option Bool
deriving Repr, DecidableEq

/-- Product snapshot as serialized in responses: `price` has gone
through `parseFloat`. -/
structure RespProduct where
  id : Nat
  name : String
  description : Option String
  category : ProductCategory
  price : F64
  unit : String
  stock_quantity : Int
  image_url : Option String
  is_available : Bool
  created_at : Nat
  updated_at : Nat
deriving Repr, DecidableEq

/-- Response order line of `OrderWithItems`. -/
structure RespOrderItem where
  id : Nat
  order_id : Nat
  product_id : Nat
  quantity : Int
  unit_price : F64
  total_price : F64
  product : RespProduct
deriving Repr, DecidableEq

/-- Response shape `OrderWithItems`. -/
structure OrderWithItems where
  id : Nat
  user_id : Nat
  total_amount : F64
  status : OrderStatus
  delivery_address : String
  delivery_phone : String
  notes : Option String
  created_at : Nat
  updated_at : Nat
  items : List RespOrderItem
deriving Repr, DecidableEq

/-- Response shape `CartItemWithProduct` returned by `getUserCart`. -/
structure CartItemWithProduct where
  id : Nat
  user_id : Nat
  product_id : Nat
  quantity : Int
  created_at : Nat
  updated_at : Nat
  product : RespProduct
deriving Repr, DecidableEq

/-- Numeric-conversion step applied to a product row when it is put into
a response (`price: parseFloat(...)`). -/
def toRespProduct (p : ProductRow) : RespProduct :=
  { id := p.id
    name := p.name
    description := p.description
    category := p.category
    price := parseCents p.price
    unit := p.unit
    stock_quantity := p.stock_quantity
    image_url := p.image_url
    is_available := p.is_available
    created_at := p.created_at
    updated_at := p.updated_at }

/-! ## Handlers -/

/-- Boolean success test on a handler result. -/
def exOk {α : Type} (r : Except String α) : Bool :=
  match r with
  | .ok _ => true
  | .error _ => false

/-- Row shape of the cart/product join selected by `createOrder`
(create_order.ts lines 26-46): cart-item id and quantity together with
the full joined product row. -/
structure JoinRow where
  id : Nat
  quantity : Int
  product : ProductRow
deriving Repr, DecidableEq

/-- Inner join of the owner's cart rows with `productsTable` on
`cart_items.product_id = products.id` (products.id is the serial primary
key, so the first match is the only match). -/
def joinCartItems (db : DB) (uid : Nat) : List JoinRow :=
  (db.cartItems.filter (fun ci => ci.user_id == uid)).filterMap
    (fun ci =>
      (db.products.find? (fun p => p.id == ci.product_id)).map
        (fun p => ⟨ci.id, ci.quantity, p⟩))

/-- Accumulation loop of create_order.ts lines 52-57: JavaScript
floating-point `totalAmount += parseFloat(item.product.price) *
item.quantity` starting from `0`. -/
def jsTotal (items : List JoinRow) : F64 :=
  items.foldl
    (fun acc it => jsAdd acc (jsMul (parseCents it.product.price) it.quantity))
    ⟨0, 0⟩

/-- JavaScript `input.notes || null` (create_order.ts line 66): the
empty string is falsy and collapses to `null`. -/
def jsOrNull (s : Option String) : Option String :=
  match s with
  | some t => if t = "" then none else some t
  | none => none

/-- Which database call of `createOrder` (if any) throws at runtime.
The handler wraps no transaction around its calls, so the calls that
already succeeded keep their effects when a later call throws. -/
inductive FailPoint
  | noFail
  | orderInsert
  | orderItemsInsert
  | cartDelete
deriving Repr, DecidableEq

/-- Handler `createOrder` (create_order.ts, second segment, lines
23-131), with explicit `now` for timestamp defaults and a `FailPoint`
fault selector for the three write calls.  The `status` default
`pending` and the `numeric(10,2)` scale of the money columns come from
the drizzle schema (second segment of ShoppingCartView.tsx, orders
table lines 433-443 and order-items table lines 446-453).  Returns the
database state left behind together with the handler result (the
`catch` block rethrows unchanged). -/
def createOrder (db : DB) (input : CreateOrderInput) (now : Nat)
    (fail : FailPoint) : DB × Except String OrderWithItems :=
  let cart := joinCartItems db input.user_id
  if cart.isEmpty then
    (db, .error "Cart is empty")
  else
    let totalAmount := jsTotal cart
    if fail = .orderInsert then
      (db, .error "database failure: orders insert")
    else
      let order : OrderRow :=
        { id := db.nextOrderId
          user_id := input.user_id
          total_amount := pgRound2 totalAmount
          status := .pending
          delivery_address := input.delivery_address
          delivery_phone := input.delivery_phone
          notes := jsOrNull input.notes
          created_at := now
          updated_at := now }
      let db1 : DB :=
        { db with
          orders := db.orders ++ [order]
          nextOrderId := db.nextOrderId + 1 }
      if fail = .orderItemsInsert then
        (db1, .error "database failure: order_items insert")
      else
        let orderItemsRows : List OrderItemRow :=
          cart.enum.map
            (fun pr =>
              { id := db1.nextOrderItemId + pr.1
                order_id := order.id
                product_id := pr.2.product.id
                quantity := pr.2.quantity
                unit_price := pr.2.product.price
                total_price :=
                  pgRound2 (jsMul (parseCents pr.2.product.price) pr.2.quantity) })
        let db2 : DB :=
          { db1 with
            orderItems := db1.orderItems ++ orderItemsRows
            nextOrderItemId := db1.nextOrderItemId + orderItemsRows.length }
        if fail = .cartDelete then
          (db2, .error "database failure: cart_items delete")
        else
          let db3 : DB :=
            { db2 with
              cartItems :=
                db2.cartItems.filter (fun ci => ci.user_id != input.user_id) }
          let resp : OrderWithItems :=
            { id := order.id
              user_id := order.user_id
              total_amount := parseCents order.total_amount
              status := order.status
              delivery_address := order.delivery_address
              delivery_phone := order.delivery_phone
              notes := order.notes
              created_at := order.created_at
              updated_at := order.updated_at
              items :=
                (orderItemsRows.zip cart).map
                  (fun pr =>
                    { id := pr.1.id
                      order_id := pr.1.order_id
                      product_id := pr.1.product_id
                      quantity := pr.1.quantity
                      unit_price := parseCents pr.1.unit_price
                      total_price := parseCents pr.1.total_price
                      product := toRespProduct pr.2.product }) }
          (db3, .ok resp)

/-- Handler `getUserCart` (get_user_cart.ts lines 6-41): read-only join
of the owner's cart rows with their products. -/
def getUserCart (db : DB) (uid : Nat) : List CartItemWithProduct :=
  (db.cartItems.filter (fun ci => ci.user_id == uid)).filterMap
    (fun ci =>
      (db.products.find? (fun p => p.id == ci.product_id)).map
        (fun p =>
          { id := ci.id
            user_id := ci.user_id
            product_id := ci.product_id
            quantity := ci.quantity
            created_at := ci.created_at
            updated_at := ci.updated_at
            product := toRespProduct p }))

/-- Handler `getDeliveryByOrder` (create_order.ts, third segment, lines
136-153): select all deliveries of the order and return `null` when the
result is empty, else the first row. -/
def getDeliveryByOrder (db : DB) (oid : Nat) : Option DeliveryRow :=
  (db.deliveries.filter (fun d => d.order_id == oid)).head?

/-- Handler `addToCart` (part_002 lines 6-77): validate the user, the
product and its availability, then update the quantity of the first
existing `(user_id, product_id)` cart row or insert a fresh row. -/
def addToCart (db : DB) (input : AddToCartInput) (now : Nat) :
    DB × Except String CartItemRow :=
  match db.users.find? (fun u => u.id == input.user_id) with
  | none =>
      (db, .error ("User with ID " ++ toString input.user_id ++ " not found"))
  | some _ =>
      match db.products.find? (fun p => p.id == input.product_id) with
      | none =>
          (db, .error ("Product with ID " ++ toString input.product_id ++ " not found"))
      | some product =>
          if product.is_available = false then
            (db, .error ("Product with ID " ++ toString input.product_id ++ " is not available"))
          else
            match db.cartItems.find?
                (fun ci => ci.user_id == input.user_id && ci.product_id == input.product_id) with
            | some ex =>
                let updated : CartItemRow :=
                  { ex with
                    quantity := ex.quantity + input.quantity
                    updated_at := now }
                ({ db with
                   cartItems :=
                     db.cartItems.map
                       (fun ci => if ci.id == ex.id then
                         { ci with
                           quantity := ex.quantity + input.quantity
                           updated_at := now }
                         else ci) },
                 .ok updated)
            | none =>
                let fresh : CartItemRow :=
                  { id := db.nextCartItemId
                    user_id := input.user_id
                    product_id := input.product_id
                    quantity := input.quantity
                    created_at := now
                    updated_at := now }
                ({ db with
                   cartItems := db.cartItems ++ [fresh]
                   nextCartItemId := db.nextCartItemId + 1 },
                 .ok fresh)

/-- Modelled from the spec: the real `updateProduct` handler body is not
among the provided sources (update_product.ts holds only a placeholder
declaration).  Per the spec, the handler writes the provided fields of
the addressed product row and touches no other table. -/
def applyProductUpdate (p : ProductRow) (u : UpdateProductInput) (now : Nat) :
    ProductRow :=
  { p with
    name := u.name.getD p.name
    description := u.description.getD p.description
    category := u.category.getD p.category
    price := u.price.getD p.price
    unit := u.unit.getD p.unit
    stock_quantity := u.stock_quantity.getD p.stock_quantity
    image_url := u.image_url.getD p.image_url
    is_available := u.is_available.getD p.is_available
    updated_at := now }

/-- Modelled from the spec: handler `updateProduct` updates the product
row addressed by `input.id` (fails when it does not exist) and writes to
no other table; its body is not among the provided sources. -/
def updateProduct (db : DB) (input : UpdateProductInput) (now : Nat) :
    DB × Except String ProductRow :=
  match db.products.find? (fun p => p.id == input.id) with
  | none => (db, .error "Product not found")
  | some p =>
      ({ db with
         products :=
           db.products.map
             (fun q => if q.id == input.id then applyProductUpdate q input now else q) },
       .ok (applyProductUpdate p input now))

/-- Validation of `createOrderInputSchema` (part_013 lines 195-200):
`delivery_address` and `delivery_phone` go through `z.string().min(1)`,
a plain length check without trimming; `notes` is
`z.string().nullable().optional()`. -/
def createOrderInputParse (raw : RawCreateOrderInput) :
    Except String CreateOrderInput :=
  if raw.delivery_address.length < 1 then
    .error "Validation error: delivery_address"
  else if raw.delivery_phone.length < 1 then
    .error "Validation error: delivery_phone"
  else
    .ok
      { user_id := raw.user_id
        delivery_address := raw.delivery_address
        delivery_phone := raw.delivery_phone
        notes := raw.notes.getD none }

/-- Endpoint `createOrder` of the tRPC router (second segment of
update_user.test.ts, lines 270-272): `publicProcedure` with
`createOrderInputSchema` as input runs the zod parse before the
mutation, so a validation failure rejects the call without ever
invoking the handler — no I/O happens and the database is untouched;
on success the parsed input is handed to `createOrder`. -/
def createOrderEndpoint (db : DB) (raw : RawCreateOrderInput) (now : Nat)
    (fail : FailPoint) : DB × Except String OrderWithItems :=
  match createOrderInputParse raw with
  | .error e => (db, .error e)
  | .ok input => createOrder db input now fail

/-- Exact decimal line total and order total, written from the spec's
words for the refinement claims: `line_total = unit_price × quantity`
and `order_total = Σ line_total` "using decimal arithmetic scaled to the
currency's minor unit (2 decimal places), never floating point", in
cents. -/
def specExactTotal (items : List JoinRow) : Int :=
  (items.map (fun it => it.product.price * it.quantity)).sum

/-! ## Concrete fixtures (mirroring the create-order test suite) -/

/-- Test user of the reference test suite. -/
def sampleUser : UserRow :=
  ⟨1, "test@example.com", "Test User", some "123-456-7890", some "123 Test St", 0, 0⟩

/-- Generic available product with the given id and price in cents. -/
def mkProduct (id : Nat) (price : Int) : ProductRow :=
  ⟨id, "Fresh Chicken Breast", some "Premium chicken breast", .chicken, price,
    "kg", 50, some "https://example.com/chicken.jpg", true, 0, 0⟩

/-- Generic cart row. -/
def mkCartRow (id uid pid : Nat) (qty : Int) : CartItemRow :=
  ⟨id, uid, pid, qty, 0, 0⟩

/-- Delivery details of the reference test suite. -/
def sampleOrderInput : CreateOrderInput :=
  ⟨1, "456 Delivery Ave", "987-654-3210", some "Leave at front door"⟩

/-- Cart of the spec's worked example: 2 × $12.99 plus 1 × $24.99. -/
def exampleDb : DB :=
  ⟨[sampleUser], [mkProduct 1 1299, mkProduct 2 2499],
    [mkCartRow 1 1 1 2, mkCartRow 2 1 2 1], [], [], [], 3, 1, 1⟩

/-- Cart holding a single line of one $0.10 product. -/
def dimeDb : DB :=
  ⟨[sampleUser], [mkProduct 1 10], [mkCartRow 1 1 1 1], [], [], [], 2, 1, 1⟩

/-- Cart with two rows for the same product (quantities 2 and 1 of the
$15.99 product), as exercised by the reference test suite. -/
def dupDb : DB :=
  ⟨[sampleUser], [mkProduct 1 1599],
    [mkCartRow 1 1 1 2, mkCartRow 2 1 1 1], [], [], [], 3, 1, 1⟩

/-- Database with a registered user but an empty cart. -/
def emptyCartDb : DB :=
  ⟨[sampleUser], [mkProduct 1 1599], [], [], [], [], 1, 1, 1⟩

/-- Database with two delivery rows referencing order 1 plus one row
referencing order 2. -/
def twoDeliveriesDb : DB :=
  ⟨[sampleUser], [], [], [], [],
    [⟨1, 1, .pending, none, none, some "Alice Courier", none, none, 0, 0⟩,
     ⟨2, 1, .assigned, none, none, some "Bob Courier", none, none, 0, 0⟩,
     ⟨3, 2, .pending, none, none, none, none, none, 0, 0⟩],
    1, 1, 1⟩

/-- Database for exercising `addToCart`: one user, one available product,
one unavailable product, and an existing cart row of quantity 2 for the
available product. -/
def addCartDb : DB :=
  ⟨[sampleUser],
    [mkProduct 1 1599,
     ⟨2, "Sold Out", none, .meat, 999, "kg", 0, none, false, 0, 0⟩,
     mkProduct 3 2550],
    [mkCartRow 1 1 1 2], [], [], [], 2, 1, 1⟩

/-- Second create-order input with the same owner but different
delivery details. -/
def sampleOrderInput2 : CreateOrderInput :=
  ⟨1, "123 Main St", "555-0123", none⟩

/-- Product update raising the price of product 1 to $99.99. -/
def priceUpd : UpdateProductInput :=
  ⟨1, none, none, none, some 9999, none, none, none, none⟩

/-! ## Helper lemmas -/

/-- Order-items table left behind by a `createOrder` run whose
cart-delete call fails (the order and its lines are already written). -/
theorem createOrder_cartDelete_orderItems (db : DB) (input : CreateOrderInput)
    (now : Nat) (he : (joinCartItems db input.user_id).isEmpty = false) :
    (createOrder db input now .cartDelete).1.orderItems =
      db.orderItems ++
        (joinCartItems db input.user_id).enum.map
          (fun pr =>
            { id := db.nextOrderItemId + pr.1
              order_id := db.nextOrderId
              product_id := pr.2.product.id
              quantity := pr.2.quantity
              unit_price := pr.2.product.price
              total_price :=
                pgRound2 (jsMul (parseCents pr.2.product.price) pr.2.quantity) }) := by
  simp [createOrder, he]

theorem filter_user_of_filter_ne (l : List CartItemRow) (uid : Nat) :
    (l.filter (fun ci => ci.user_id != uid)).filter
      (fun ci => ci.user_id == uid) = [] := by
  induction l with
  | nil => rfl
  | cons a t ih =>
      by_cases h : a.user_id = uid <;>
        simp [List.filter_cons, h, ih]

theorem head?_filter_eq_find? {α : Type} (p : α → Bool) (l : List α) :
    (l.filter p).head? = l.find? p := by
  induction l with
  | nil => rfl
  | cons a t ih =>
      by_cases h : p a <;> simp [List.filter_cons, List.find?_cons, h, ih]

theorem enumFrom_map_snd_fun {α β : Type} (g : α → β) (l : List α) (n : Nat) :
    (l.enumFrom n).map (fun pr => g pr.2) = l.map g := by
  induction l generalizing n with
  | nil => rfl
  | cons a t ih => simp [List.enumFrom, ih]

theorem snd_mem_of_mem_enumFrom {α : Type} (pr : Nat × α) (l : List α) (n : Nat)
    (h : pr ∈ l.enumFrom n) : pr.2 ∈ l := by
  induction l generalizing n with
  | nil => simp [List.enumFrom] at h
  | cons a t ih =>
      simp only [List.enumFrom, List.mem_cons] at h
      rcases h with h | h
      · subst h; exact List.mem_cons_self _ _
      · exact List.mem_cons_of_mem _ (ih _ h)

/-- Success characterization of `createOrder`: the handler succeeds
exactly when no fault is injected and the cart/product join is
non-empty. -/
theorem createOrder_ok_iff (db : DB) (input : CreateOrderInput) (now : Nat)
    (fail : FailPoint) :
    exOk (createOrder db input now fail).2 = true ↔
      fail = .noFail ∧ (joinCartItems db input.user_id).isEmpty = false := by
  cases fail <;>
    by_cases he : (joinCartItems db input.user_id).isEmpty <;>
      simp [createOrder, he, exOk]

/-- Orders table left behind by a successful `createOrder`. -/
theorem createOrder_success_orders (db : DB) (input : CreateOrderInput)
    (now : Nat) (he : (joinCartItems db input.user_id).isEmpty = false) :
    (createOrder db input now .noFail).1.orders =
      db.orders ++
        [{ id := db.nextOrderId
           user_id := input.user_id
           total_amount := pgRound2 (jsTotal (joinCartItems db input.user_id))
           status := .pending
           delivery_address := input.delivery_address
           delivery_phone := input.delivery_phone
           notes := jsOrNull input.notes
           created_at := now
           updated_at := now }] := by
  simp [createOrder, he]

/-- Order-items table left behind by a successful `createOrder`. -/
theorem createOrder_success_orderItems (db : DB) (input : CreateOrderInput)
    (now : Nat) (he : (joinCartItems db input.user_id).isEmpty = false) :
    (createOrder db input now .noFail).1.orderItems =
      db.orderItems ++
        (joinCartItems db input.user_id).enum.map
          (fun pr =>
            { id := db.nextOrderItemId + pr.1
              order_id := db.nextOrderId
              product_id := pr.2.product.id
              quantity := pr.2.quantity
              unit_price := pr.2.product.price
              total_price :=
                pgRound2 (jsMul (parseCents pr.2.product.price) pr.2.quantity) }) := by
  simp [createOrder, he]

/-! ## Claim theorems -/

/-- C3: for an owner whose cart contains zero lines, `createOrder`
returns the business-rule error `Cart is empty` — distinguishable from
the system-fault messages — and has no side effects: the database state,
including every cart row and the orders and order-items tables, is
returned exactly as it was. -/
theorem createOrder_empty_cart_rejected (db : DB) (input : CreateOrderInput)
    (now : Nat) (fail : FailPoint)
    (h : db.cartItems.filter (fun ci => ci.user_id == input.user_id) = []) :
    createOrder db input now fail = (db, Except.error "Cart is empty") := by
  unfold createOrder joinCartItems
  rw [h]
  rfl

/-- Witness for C3: a user with an empty cart, with a fault injected at
the order insert to show the rejection happens first. -/
theorem createOrder_empty_cart_rejected_witness :
    emptyCartDb.cartItems.filter
      (fun ci => ci.user_id == sampleOrderInput.user_id) = [] ∧
    createOrder emptyCartDb sampleOrderInput 0 .orderInsert =
      (emptyCartDb, Except.error "Cart is empty") :=
  ⟨by decide,
    createOrder_empty_cart_rejected emptyCartDb sampleOrderInput 0 .orderInsert
      (by decide)⟩

/-- C1 (failing input): on the spec's example cart, injecting a fault
into the order-lines write after the order write leaves an observable
partial state: the handler reports failure, yet an orphaned order row
(total $50.97) is present with zero order lines, while the cart is
intact.  The claim demands that no order row be observable after such a
failure; the handler runs its three writes without a transaction. -/
theorem createOrder_not_atomic_orphan_order :
    exOk (createOrder exampleDb sampleOrderInput 5 .orderItemsInsert).2 = false ∧
    (createOrder exampleDb sampleOrderInput 5 .orderItemsInsert).1.orders =
      [⟨1, 1, 5097, .pending, "456 Delivery Ave", "987-654-3210",
        some "Leave at front door", 5, 5⟩] ∧
    (createOrder exampleDb sampleOrderInput 5 .orderItemsInsert).1.orderItems = [] ∧
    (createOrder exampleDb sampleOrderInput 5 .orderItemsInsert).1.cartItems =
      exampleDb.cartItems := by
  decide

/-- C2 counterexample: on a cart holding a single $0.10 line, the
`totalAmount` accumulated by create_order.ts lines 52-57 (binary64
`parseFloat` and `+=`) is not the exact decimal sum Σ qᵢ·uᵢ: the claim's
"computed in exact decimal arithmetic …, never floating point, so the
sum is exact" does not hold of the computation. -/
theorem jsTotal_not_exact_decimal :
    ¬ (jsTotal (joinCartItems dimeDb 1)).eqFrac
        (specExactTotal (joinCartItems dimeDb 1)) 100 := by
  decide

/-- C2 amended: the totals are accumulated in binary64 floating point
and rounded to 2 decimal places when persisted to the `numeric` columns;
after that rounding, the spec's example cart (2 × $12.99 + 1 × $24.99)
persists total $50.97 with line totals $25.98 and $24.99 and unit-price
snapshots $12.99 and $24.99, which agrees with the exact decimal sum. -/
theorem createOrder_example_totals_after_rounding :
    (createOrder exampleDb sampleOrderInput 7 .noFail).1.orders =
      [⟨1, 1, 5097, .pending, "456 Delivery Ave", "987-654-3210",
        some "Leave at front door", 7, 7⟩] ∧
    (createOrder exampleDb sampleOrderInput 7 .noFail).1.orderItems =
      [⟨1, 1, 1, 2, 1299, 2598⟩, ⟨2, 1, 2, 1, 2499, 2499⟩] ∧
    pgRound2 (jsTotal (joinCartItems exampleDb 1)) =
      specExactTotal (joinCartItems exampleDb 1) := by
  decide

/-- C6 counterexample: a whitespace-only delivery address and phone
(`" "`) pass `createOrderInputSchema`: `z.string().min(1)` checks the
untrimmed length, so the claimed trim-then-reject behavior does not
hold. -/
theorem createOrderInputParse_accepts_whitespace :
    exOk (createOrderInputParse ⟨1, " ", " ", none⟩) = true := by
  decide

/-- C6 amended: validation rejects exactly the requests whose delivery
address or delivery phone is the empty string (untrimmed length 0),
before the handler performs any I/O and with no side effects;
whitespace-only values pass validation. -/
theorem createOrderEndpoint_rejects_empty_fields (db : DB)
    (raw : RawCreateOrderInput) (now : Nat) (fail : FailPoint) :
    (raw.delivery_address.length = 0 ∨ raw.delivery_phone.length = 0 →
      (createOrderEndpoint db raw now fail).1 = db ∧
      exOk (createOrderEndpoint db raw now fail).2 = false) ∧
    (0 < raw.delivery_address.length → 0 < raw.delivery_phone.length →
      exOk (createOrderInputParse raw) = true) := by
  constructor
  · intro h
    by_cases ha : raw.delivery_address.length < 1
    · simp [createOrderEndpoint, createOrderInputParse, ha, exOk]
    · have hp : raw.delivery_phone.length = 0 := by
        rcases h with h | h
        · exact absurd (by omega : raw.delivery_address.length < 1) ha
        · exact h
      simp [createOrderEndpoint, createOrderInputParse, ha, hp, exOk]
  · intro h1 h2
    have ha : ¬ raw.delivery_address.length < 1 := by omega
    have hp : ¬ raw.delivery_phone.length < 1 := by omega
    simp [createOrderInputParse, ha, hp, exOk]

/-- C4: the owner's cart rows are removed exactly when `createOrder`
fully succeeds — after success `getUserCart` returns the empty list and
no cart row of the owner remains; on every failure path (empty cart,
fault at the order insert, at the order-lines insert or at the cart
delete) the cart table is exactly as before and `getUserCart` reads back
the same lines as before the attempt. -/
theorem createOrder_cart_drained_iff_success (db : DB)
    (input : CreateOrderInput) (now : Nat) (fail : FailPoint) :
    (exOk (createOrder db input now fail).2 = true →
      (createOrder db input now fail).1.cartItems.filter
        (fun ci => ci.user_id == input.user_id) = [] ∧
      getUserCart (createOrder db input now fail).1 input.user_id = []) ∧
    (exOk (createOrder db input now fail).2 = false →
      (createOrder db input now fail).1.cartItems = db.cartItems ∧
      getUserCart (createOrder db input now fail).1 input.user_id =
        getUserCart db input.user_id) := by
  constructor
  · intro hok
    obtain ⟨hf, he⟩ := (createOrder_ok_iff db input now fail).1 hok
    subst hf
    refine ⟨?_, ?_⟩
    · simp [createOrder, he, filter_user_of_filter_ne]
    · simp [createOrder, he, getUserCart, filter_user_of_filter_ne]
  · intro hbad
    have hnot : ¬ (fail = .noFail ∧
        (joinCartItems db input.user_id).isEmpty = false) := by
      intro hc
      have hok := (createOrder_ok_iff db input now fail).2 hc
      rw [hok] at hbad
      exact Bool.noConfusion hbad
    rcases Bool.eq_false_or_eq_true
        ((joinCartItems db input.user_id).isEmpty) with he | he
    · exact ⟨by simp [createOrder, he], by simp [createOrder, he]⟩
    · cases fail with
      | noFail => exact absurd ⟨rfl, he⟩ hnot
      | orderInsert =>
          exact ⟨by simp [createOrder, he], by simp [createOrder, he, getUserCart]⟩
      | orderItemsInsert =>
          exact ⟨by simp [createOrder, he], by simp [createOrder, he, getUserCart]⟩
      | cartDelete =>
          exact ⟨by simp [createOrder, he], by simp [createOrder, he, getUserCart]⟩

/-- Witness for C4: on the example cart, a successful run drains the
cart as read back by `getUserCart`, while a run with a fault at the
order insert leaves the cart rows exactly as they were. -/
theorem createOrder_cart_drained_iff_success_witness :
    getUserCart (createOrder exampleDb sampleOrderInput 3 .noFail).1 1 = [] ∧
    (createOrder exampleDb sampleOrderInput 3 .orderInsert).1.cartItems =
      exampleDb.cartItems :=
  ⟨((createOrder_cart_drained_iff_success exampleDb sampleOrderInput 3
      .noFail).1 (by decide)).2,
   ((createOrder_cart_drained_iff_success exampleDb sampleOrderInput 3
      .orderInsert).2 (by decide)).1⟩

/-- C9: `getDeliveryByOrder` returns `null` (not an error) exactly when
no delivery row references the order, and otherwise returns one of the
rows referencing it — the first row the query yields — never failing on
multiplicity. -/
theorem getDeliveryByOrder_null_or_member (db : DB) (oid : Nat) :
    (getDeliveryByOrder db oid = none →
      ∀ d ∈ db.deliveries, d.order_id ≠ oid) ∧
    (∀ d, getDeliveryByOrder db oid = some d →
      d ∈ db.deliveries ∧ d.order_id = oid ∧
      db.deliveries.find? (fun x => x.order_id == oid) = some d) := by
  have hfind : getDeliveryByOrder db oid =
      db.deliveries.find? (fun x => x.order_id == oid) := by
    unfold getDeliveryByOrder
    exact head?_filter_eq_find? _ _
  constructor
  · intro h d hd
    rw [hfind] at h
    have hnp := List.find?_eq_none.1 h d hd
    simpa using hnp
  · intro d h
    rw [hfind] at h
    refine ⟨List.mem_of_find?_eq_some h, ?_, h⟩
    have hp := List.find?_some h
    simpa using hp

/-- Witness for C9: with two delivery rows referencing order 1 the
handler returns the first of them, and with no row referencing order 5
it returns `null`, every row satisfying the non-reference property. -/
theorem getDeliveryByOrder_null_or_member_witness :
    ((⟨1, 1, .pending, none, none, some "Alice Courier", none, none, 0, 0⟩ :
        DeliveryRow) ∈ twoDeliveriesDb.deliveries ∧
      (⟨1, 1, .pending, none, none, some "Alice Courier", none, none, 0, 0⟩ :
        DeliveryRow).order_id = 1 ∧
      twoDeliveriesDb.deliveries.find? (fun x => x.order_id == 1) =
        some ⟨1, 1, .pending, none, none, some "Alice Courier", none, none, 0, 0⟩) ∧
    ∀ d ∈ twoDeliveriesDb.deliveries, d.order_id ≠ 5 :=
  ⟨(getDeliveryByOrder_null_or_member twoDeliveriesDb 1).2
      ⟨1, 1, .pending, none, none, some "Alice Courier", none, none, 0, 0⟩
      (by decide),
   (getDeliveryByOrder_null_or_member twoDeliveriesDb 5).1 (by decide)⟩

/-- C7: every order row `createOrder` creates carries status `pending`,
and its total is derived from the owner's cart, not from the request:
two requests differing in everything but the owner produce orders with
the same total. -/
theorem createOrder_status_pending_total_derived (db : DB)
    (i1 i2 : CreateOrderInput) (n1 n2 : Nat) (fail : FailPoint)
    (huid : i1.user_id = i2.user_id)
    (hok : exOk (createOrder db i1 n1 fail).2 = true) :
    ∃ o1 o2 : OrderRow,
      (createOrder db i1 n1 fail).1.orders = db.orders ++ [o1] ∧
      (createOrder db i2 n2 fail).1.orders = db.orders ++ [o2] ∧
      o1.status = .pending ∧ o2.status = .pending ∧
      o2.total_amount = o1.total_amount := by
  obtain ⟨hf, he⟩ := (createOrder_ok_iff db i1 n1 fail).1 hok
  subst hf
  have he2 : (joinCartItems db i2.user_id).isEmpty = false := by
    rw [← huid]; exact he
  refine ⟨_, _, createOrder_success_orders db i1 n1 he,
    createOrder_success_orders db i2 n2 he2, rfl, rfl, ?_⟩
  simp [huid]

/-- Witness for C7: two requests for the same owner with different
delivery details and timestamps create `pending` orders with equal
totals. -/
theorem createOrder_status_pending_total_derived_witness :
    ∃ o1 o2 : OrderRow,
      (createOrder exampleDb sampleOrderInput 1 .noFail).1.orders =
        exampleDb.orders ++ [o1] ∧
      (createOrder exampleDb sampleOrderInput2 2 .noFail).1.orders =
        exampleDb.orders ++ [o2] ∧
      o1.status = .pending ∧ o2.status = .pending ∧
      o2.total_amount = o1.total_amount :=
  createOrder_status_pending_total_derived exampleDb sampleOrderInput
    sampleOrderInput2 1 2 .noFail (by decide) (by decide)

/-- C8: a successful `createOrder` persists exactly one order line per
cart line — duplicate `(owner, product)` cart rows included, each kept
as an independent line with its own quantity — and the persisted order
total is the accumulated sum over all of them. -/
theorem createOrder_duplicate_cart_lines_independent (db : DB)
    (input : CreateOrderInput) (now : Nat)
    (hok : exOk (createOrder db input now .noFail).2 = true) :
    (createOrder db input now .noFail).1.orderItems.length =
      db.orderItems.length + (joinCartItems db input.user_id).length ∧
    ((createOrder db input now .noFail).1.orderItems.drop
        db.orderItems.length).map (fun r => (r.product_id, r.quantity)) =
      (joinCartItems db input.user_id).map
        (fun j => (j.product.id, j.quantity)) ∧
    ∃ o : OrderRow,
      (createOrder db input now .noFail).1.orders = db.orders ++ [o] ∧
      o.total_amount = pgRound2 (jsTotal (joinCartItems db input.user_id)) := by
  have he := ((createOrder_ok_iff db input now .noFail).1 hok).2
  rw [createOrder_success_orderItems db input now he]
  refine ⟨?_, ?_, ⟨_, createOrder_success_orders db input now he, rfl⟩⟩
  · simp
  · rw [List.drop_left, List.map_map]
    exact enumFrom_map_snd_fun (fun j => (j.product.id, j.quantity))
      (joinCartItems db input.user_id) 0

/-- Witness for C8: two cart rows for the same $15.99 product with
quantities 2 and 1 yield two order lines and a persisted total of
$47.97 = 3 × $15.99, equal to the exact decimal sum. -/
theorem createOrder_duplicate_cart_lines_independent_witness :
    ((createOrder dupDb sampleOrderInput 4 .noFail).1.orderItems.length =
        dupDb.orderItems.length + (joinCartItems dupDb 1).length ∧
      ((createOrder dupDb sampleOrderInput 4 .noFail).1.orderItems.drop
          dupDb.orderItems.length).map (fun r => (r.product_id, r.quantity)) =
        (joinCartItems dupDb 1).map (fun j => (j.product.id, j.quantity)) ∧
      ∃ o : OrderRow,
        (createOrder dupDb sampleOrderInput 4 .noFail).1.orders =
          dupDb.orders ++ [o] ∧
        o.total_amount = pgRound2 (jsTotal (joinCartItems dupDb 1))) ∧
    (joinCartItems dupDb 1).length = 2 ∧
    pgRound2 (jsTotal (joinCartItems dupDb 1)) = 4797 ∧
    specExactTotal (joinCartItems dupDb 1) = 3 * 1599 :=
  ⟨createOrder_duplicate_cart_lines_independent dupDb sampleOrderInput 4
      (by decide),
    by decide, by decide, by decide⟩

/-- C5: order lines snapshot the product price at placement time — every
order line a `createOrder` run adds carries the joined product's price
of that moment as `unit_price` — and a later `updateProduct` (modelled
from the spec, its body not being among the provided sources) rewrites
only the products table, leaving every existing order line's
`unit_price`, `quantity` and `total_price` (and every order row)
unchanged. -/
theorem orderLines_price_snapshot_immutable (db : DB)
    (u : UpdateProductInput) (nowU : Nat) (db2 : DB)
    (input : CreateOrderInput) (now : Nat) (fail : FailPoint) :
    (updateProduct db u nowU).1.orderItems = db.orderItems ∧
    (updateProduct db u nowU).1.orders = db.orders ∧
    ∀ oi ∈ (createOrder db2 input now fail).1.orderItems,
      oi ∈ db2.orderItems ∨
      ∃ j ∈ joinCartItems db2 input.user_id,
        oi.product_id = j.product.id ∧ oi.quantity = j.quantity ∧
        oi.unit_price = j.product.price ∧
        oi.total_price =
          pgRound2 (jsMul (parseCents j.product.price) j.quantity) := by
  refine ⟨?_, ?_, ?_⟩
  · unfold updateProduct
    cases db.products.find? (fun p => p.id == u.id) <;> rfl
  · unfold updateProduct
    cases db.products.find? (fun p => p.id == u.id) <;> rfl
  · intro oi hoi
    rcases Bool.eq_false_or_eq_true
        ((joinCartItems db2 input.user_id).isEmpty) with he | he
    · left; simpa [createOrder, he] using hoi
    · cases fail with
      | orderInsert => left; simpa [createOrder, he] using hoi
      | orderItemsInsert => left; simpa [createOrder, he] using hoi
      | noFail =>
          rw [createOrder_success_orderItems db2 input now he] at hoi
          rcases List.mem_append.1 hoi with h | h
          · exact Or.inl h
          · right
            rcases List.mem_map.1 h with ⟨pr, hpr, heq⟩
            refine ⟨pr.2, ?_, ?_⟩
            · exact snd_mem_of_mem_enumFrom pr _ 0
                (by simpa [List.enum] using hpr)
            · subst heq; exact ⟨rfl, rfl, rfl, rfl⟩
      | cartDelete =>
          rw [createOrder_cartDelete_orderItems db2 input now he] at hoi
          rcases List.mem_append.1 hoi with h | h
          · exact Or.inl h
          · right
            rcases List.mem_map.1 h with ⟨pr, hpr, heq⟩
            refine ⟨pr.2, ?_, ?_⟩
            · exact snd_mem_of_mem_enumFrom pr _ 0
                (by simpa [List.enum] using hpr)
            · subst heq; exact ⟨rfl, rfl, rfl, rfl⟩

/-- Witness for C5: raising product 1's price to $99.99 leaves the
order-items table untouched, and the first order line of the example
run snapshots the $12.99 join-time price. -/
theorem orderLines_price_snapshot_immutable_witness :
    (updateProduct exampleDb priceUpd 9).1.orderItems =
      exampleDb.orderItems ∧
    ((⟨1, 1, 1, 2, 1299, 2598⟩ : OrderItemRow) ∈ exampleDb.orderItems ∨
      ∃ j ∈ joinCartItems exampleDb sampleOrderInput.user_id,
        (⟨1, 1, 1, 2, 1299, 2598⟩ : OrderItemRow).product_id = j.product.id ∧
        (⟨1, 1, 1, 2, 1299, 2598⟩ : OrderItemRow).quantity = j.quantity ∧
        (⟨1, 1, 1, 2, 1299, 2598⟩ : OrderItemRow).unit_price = j.product.price ∧
        (⟨1, 1, 1, 2, 1299, 2598⟩ : OrderItemRow).total_price =
          pgRound2 (jsMul (parseCents j.product.price) j.quantity)) :=
  ⟨(orderLines_price_snapshot_immutable exampleDb priceUpd 9 exampleDb
      sampleOrderInput 7 .noFail).1,
    (orderLines_price_snapshot_immutable exampleDb priceUpd 9 exampleDb
      sampleOrderInput 7 .noFail).2.2 ⟨1, 1, 1, 2, 1299, 2598⟩ (by decide)⟩

/-- C10: `addToCart` is an upsert on the `(user_id, product_id)` pair:
a missing user, a missing product or an unavailable product yields an
error with the database unchanged; with an existing cart row for the
pair the row's quantity grows by the requested quantity and no row is
added; otherwise exactly one new row with the requested quantity is
appended. -/
theorem addToCart_upsert_semantics (db : DB) (input : AddToCartInput)
    (now : Nat) :
    (db.users.find? (fun u => u.id == input.user_id) = none →
      addToCart db input now =
        (db, .error ("User with ID " ++ toString input.user_id ++ " not found"))) ∧
    (db.products.find? (fun p => p.id == input.product_id) = none →
      (addToCart db input now).1 = db ∧
      exOk (addToCart db input now).2 = false) ∧
    (∀ p, db.products.find? (fun q => q.id == input.product_id) = some p →
      p.is_available = false →
      (addToCart db input now).1 = db ∧
      exOk (addToCart db input now).2 = false) ∧
    (∀ w p ex, db.users.find? (fun u => u.id == input.user_id) = some w →
      db.products.find? (fun q => q.id == input.product_id) = some p →
      p.is_available = true →
      db.cartItems.find?
        (fun ci => ci.user_id == input.user_id &&
          ci.product_id == input.product_id) = some ex →
      (addToCart db input now).2 =
        Except.ok
          { ex with quantity := ex.quantity + input.quantity,
                    updated_at := now } ∧
      (addToCart db input now).1.cartItems.length = db.cartItems.length ∧
      { ex with quantity := ex.quantity + input.quantity,
                updated_at := now } ∈ (addToCart db input now).1.cartItems ∧
      (∀ ci ∈ db.cartItems, ci.id ≠ ex.id →
        ci ∈ (addToCart db input now).1.cartItems)) ∧
    (∀ w p, db.users.find? (fun u => u.id == input.user_id) = some w →
      db.products.find? (fun q => q.id == input.product_id) = some p →
      p.is_available = true →
      db.cartItems.find?
        (fun ci => ci.user_id == input.user_id &&
          ci.product_id == input.product_id) = none →
      (addToCart db input now).1.cartItems =
        db.cartItems ++
          [⟨db.nextCartItemId, input.user_id, input.product_id,
            input.quantity, now, now⟩] ∧
      (addToCart db input now).2 =
        Except.ok ⟨db.nextCartItemId, input.user_id, input.product_id,
          input.quantity, now, now⟩) := by
  refine ⟨?_, ?_, ?_, ?_, ?_⟩
  · intro hu
    simp [addToCart, hu]
  · intro hp
    cases hu : db.users.find? (fun u => u.id == input.user_id) with
    | none => simp [addToCart, hu, exOk]
    | some w => simp [addToCart, hu, hp, exOk]
  · intro p hp hav
    cases hu : db.users.find? (fun u => u.id == input.user_id) with
    | none => simp [addToCart, hu, exOk]
    | some w => simp [addToCart, hu, hp, hav, exOk]
  · intro w p ex hu hp hav hex
    have hmem := List.mem_of_find?_eq_some hex
    refine ⟨?_, ?_, ?_, ?_⟩
    · simp [addToCart, hu, hp, hav, hex]
    · simp [addToCart, hu, hp, hav, hex]
    · simp only [addToCart, hu, hp, hav, hex]
      simp only [Bool.true_eq_false, if_false]
      exact List.mem_map.2 ⟨ex, hmem, by simp⟩
    · intro ci hci hne
      simp only [addToCart, hu, hp, hav, hex]
      simp only [Bool.true_eq_false, if_false]
      exact List.mem_map.2 ⟨ci, hci, by simp [hne]⟩
  · intro w p hu hp hav hexn
    constructor
    · simp [addToCart, hu, hp, hav, hexn]
    · simp [addToCart, hu, hp, hav, hexn]

/-- Witness for C10: on a database with an existing quantity-2 cart row
for product 1, adding 3 more updates that row in place (no new row);
adding product 3 appends a fresh row; the unavailable product 2 and a
missing user are rejected with the database unchanged. -/
theorem addToCart_upsert_semantics_witness :
    addToCart addCartDb ⟨99, 1, 1⟩ 5 =
      (addCartDb, .error ("User with ID " ++ toString (99 : Nat) ++ " not found")) ∧
    ((addToCart addCartDb ⟨1, 2, 1⟩ 5).1 = addCartDb ∧
      exOk (addToCart addCartDb ⟨1, 2, 1⟩ 5).2 = false) ∧
    ((addToCart addCartDb ⟨1, 1, 3⟩ 6).2 =
        Except.ok
          { mkCartRow 1 1 1 2 with
              quantity := (mkCartRow 1 1 1 2).quantity + 3,
              updated_at := 6 } ∧
      (addToCart addCartDb ⟨1, 1, 3⟩ 6).1.cartItems.length =
        addCartDb.cartItems.length) ∧
    (addToCart addCartDb ⟨1, 3, 4⟩ 7).1.cartItems =
      addCartDb.cartItems ++ [⟨addCartDb.nextCartItemId, 1, 3, 4, 7, 7⟩] :=
  ⟨(addToCart_upsert_semantics addCartDb ⟨99, 1, 1⟩ 5).1 (by decide),
    (addToCart_upsert_semantics addCartDb ⟨1, 2, 1⟩ 5).2.2.1
      ⟨2, "Sold Out", none, .meat, 999, "kg", 0, none, false, 0, 0⟩
      (by decide) (by decide),
    ⟨((addToCart_upsert_semantics addCartDb ⟨1, 1, 3⟩ 6).2.2.2.1
        sampleUser (mkProduct 1 1599) (mkCartRow 1 1 1 2)
        (by decide) (by decide) (by decide) (by decide)).1,
      ((addToCart_upsert_semantics addCartDb ⟨1, 1, 3⟩ 6).2.2.2.1
        sampleUser (mkProduct 1 1599) (mkCartRow 1 1 1 2)
        (by decide) (by decide) (by decide) (by decide)).2.1⟩,
    ((addToCart_upsert_semantics addCartDb ⟨1, 3, 4⟩ 7).2.2.2.2
      sampleUser (mkProduct 3 2550)
      (by decide) (by decide) (by decide) (by decide)).1⟩

/-- Witness for C6 amended: an empty delivery address is rejected with
the database untouched. -/
theorem createOrderEndpoint_rejects_empty_fields_witness :
    (createOrderEndpoint exampleDb ⟨1, "", "987-654-3210", none⟩ 0 .noFail).1 =
      exampleDb ∧
    exOk (createOrderEndpoint exampleDb ⟨1, "", "987-654-3210", none⟩ 0 .noFail).2 =
      false :=
  (createOrderEndpoint_rejects_empty_fields exampleDb
    ⟨1, "", "987-654-3210", none⟩ 0 .noFail).1 (Or.inl (by decide))

end Meatly
